import Mathlib

/-!
Shallow embedding of `src/background_installer.py` (advanced_batch_installer).

The program is a background daemon that repeatedly installs and uninstalls
random batches of packages.  The parts embedded here are the ones the
verified claims are about:

* the cancellable wait loops (`for _ in range(delay_seconds // 10): if
  shutdown_flag: break; time.sleep(10)`), modelled by `waitTicks`;
* `install_batch` / `uninstall_batch`, modelled over an oracle giving the
  outcome of each package-manager call;
* the main scheduler loop of `main_installation`, modelled by
  `runStep` / `runLoop` / `main_installation` over oracles for the random
  draws and for the value of the global `shutdown_flag` at each read;
* the lock-file operations `check_existing_process`, `stop_process` and
  the `status` command, modelled over an abstract lock-file state
  (`Option String` = file contents, `none` = absent) and a process
  liveness oracle.

Randomness (`random.randint`) is modelled by oracle functions; theorems
that need the draw ranges take them as hypotheses (the contract of
`randint`).  The asynchronous `shutdown_flag` is modelled as a function
from a read counter to `Bool`: every read of the flag consumes one index,
and the flag being set once and never reset is the `MonoFlag` hypothesis.
-/

namespace BackgroundInstaller

/-- The global `shutdown_flag` is only ever set (by the signal handler),
never cleared: once a read observes `true`, every later read does too. -/
def MonoFlag (flag : Nat → Bool) : Prop :=
  ∀ i j, i ≤ j → flag i = true → flag j = true

/-- One cancellable wait loop, from `main_installation`:
`for _ in range(iters): if shutdown_flag: break; time.sleep(10)`.
`iters` is `delay_seconds // 10`; `flag k` is the value of
`shutdown_flag` at the k-th read of the run; `r` is the index of the
next unread flag value.  Returns (number of 10-second ticks slept,
next unused read index). -/
def waitTicks : Nat → (Nat → Bool) → Nat → Nat × Nat
  | 0, _, r => (0, r)
  | k + 1, flag, r =>
    if flag r then (0, r + 1)
    else
      let w := waitTicks k flag (r + 1)
      (w.1 + 1, w.2)

/-- Outcome of one `subprocess.run` package-manager invocation:
it returns with code 0, returns with a nonzero code, or raises
`subprocess.TimeoutExpired`. -/
inductive CallOutcome
  | success
  | failure
  | timedOut
deriving DecidableEq, Repr

/-- Observable result of `install_batch` / `uninstall_batch`:
the returned boolean, how many per-item fallback calls were made, and
how many of them the function counted as successes. -/
structure PhaseResult where
  result : Bool
  fallbackAttempts : Nat
  successCount : Nat
deriving DecidableEq, Repr

/-- `success_count` accumulated by `install_batch`'s fallback loop over
items `0..n-1`: an item counts iff its individual `apt install` call
returns code 0 (a nonzero code or a timeout is only logged, the loop
goes on because each call sits in its own `try`). -/
def countSuccess (itemRes : Nat → CallOutcome) : Nat → Nat
  | 0 => 0
  | n + 1 => countSuccess itemRes n + (if itemRes n = .success then 1 else 0)

/-- `install_batch(apps_list, ...)` from the source.  `batchRes` is the
outcome of the whole-batch `apt install` call (timeout 900 s), `itemRes i`
the outcome of the per-item call for item `i` (timeout 300 s), `n` the
batch size.  A whole-batch success returns `True`; a nonzero return code
enters the per-item fallback and returns `success_count > 0`; a
whole-batch `TimeoutExpired` is caught by the outer handler and returns
`False` without running the fallback. -/
def install_batch (batchRes : CallOutcome) (itemRes : Nat → CallOutcome)
    (n : Nat) : PhaseResult :=
  match batchRes with
  | .success => ⟨true, 0, 0⟩
  | .failure => ⟨decide (0 < countSuccess itemRes n), n, countSuccess itemRes n⟩
  | .timedOut => ⟨false, 0, 0⟩

/-- The per-item fallback loop of `uninstall_batch` over the items
`start, start+1, ..., start+k-1`: each `apt remove` call (timeout 180 s)
has no surrounding `try`, so the first `TimeoutExpired` escapes the loop
(caught by the outer handler); return codes are ignored entirely.
Returns (whether the loop ran to completion, number of calls made). -/
def uninstallItems (itemRes : Nat → CallOutcome) (start : Nat) : Nat → Bool × Nat
  | 0 => (true, 0)
  | k + 1 =>
    if itemRes start = .timedOut then (false, 1)
    else
      let w := uninstallItems itemRes (start + 1) k
      (w.1, w.2 + 1)

/-- `uninstall_batch(apps_list, ...)` from the source.  A whole-batch
success returns `True`; a nonzero return code enters the per-item loop
and returns `True` if it completes (no success counting), `False` if a
per-item call times out (the exception reaches the outer handler);
a whole-batch `TimeoutExpired` returns `False` with no fallback. -/
def uninstall_batch (batchRes : CallOutcome) (itemRes : Nat → CallOutcome)
    (n : Nat) : PhaseResult :=
  match batchRes with
  | .success => ⟨true, 0, 0⟩
  | .failure => ⟨(uninstallItems itemRes 0 n).1, (uninstallItems itemRes 0 n).2, 0⟩
  | .timedOut => ⟨false, 0, 0⟩

/-- `str.strip()`: drop whitespace from both ends of a character list. -/
def stripChars (cs : List Char) : List Char :=
  ((cs.dropWhile Char.isWhitespace).reverse.dropWhile Char.isWhitespace).reverse

/-- Numeric value of a list of decimal digit characters. -/
def digitsVal (cs : List Char) : Nat :=
  cs.foldl (fun a c => a * 10 + (c.toNat - 48)) 0

/-- Python's `int(s.strip())` as used on PID-file contents, restricted to
the non-negative values a PID file can hold: `some value` when the
stripped contents are a nonempty digit string, `none` when parsing
raises `ValueError`. -/
def pyIntNat (s : String) : Option Nat :=
  let t := stripChars s.data
  if !t.isEmpty && t.all Char.isDigit then some (digitsVal t) else none

/-- `check_existing_process()` from the source, over an abstract lock
file (`none` = absent, `some s` = file with contents `s`) and a liveness
oracle (`alive p` = whether `os.kill(p, 0)` succeeds).  Returns the
boolean result and the lock file afterwards. -/
def check_existing_process (lock : Option String) (alive : Nat → Bool) :
    Bool × Option String :=
  match lock with
  | none => (false, none)
  | some s =>
    match pyIntNat s with
    | some pid => if alive pid then (true, some s) else (false, none)
    | none => (false, none)

/-- What `stop_process()` printed / which signals it sent. -/
inductive StopMsg
  | noProcess
  | invalidPid
  | killError
  | stoppedClean
  | forcedKill
deriving DecidableEq, Repr

/-- Observable result of `stop_process()`: lock file afterwards, message
class, and which signals were sent. -/
structure StopResult where
  lock : Option String
  msg : StopMsg
  sentTerm : Bool
  sentKill : Bool
deriving DecidableEq, Repr

/-- `stop_process()` from the source.  `termOk p` = whether
`os.kill(p, SIGTERM)` succeeds (raises `OSError` otherwise);
`aliveAfter p` = whether the process still exists at the liveness probe
after the 2-second grace sleep.  Every branch that found a lock file
removes it. -/
def stop_process (lock : Option String) (termOk aliveAfter : Nat → Bool) :
    StopResult :=
  match lock with
  | none => ⟨none, .noProcess, false, false⟩
  | some s =>
    match pyIntNat s with
    | none => ⟨none, .invalidPid, false, false⟩
    | some pid =>
      if termOk pid then
        if aliveAfter pid then ⟨none, .forcedKill, true, true⟩
        else ⟨none, .stoppedClean, true, false⟩
      else ⟨none, .killError, false, false⟩

/-- The `status` CLI command (`__main__`, lines 605-610): it prints
RUNNING iff the PID file exists, then `show_status()` only reads the log
and the PID file.  It takes no liveness oracle because the code never
probes the recorded process; the lock file is returned unchanged. -/
def status_command (lock : Option String) : String × Option String :=
  (if lock.isSome then "Background process is RUNNING"
   else "Background process is NOT running", lock)

/-! ### The main scheduler loop (`main_installation`) -/

/-- Oracles for the random draws and package-manager results consumed by
`main_installation`, indexed by `batch_number` (starting at 1):
`sizeDraw` = `random.randint(5, 14)`, `delayMin` = `random.randint(7, 16)`,
`jitter` = `random.randint(0, 59)`, `interDelay` = `random.randint(60, 180)`,
`installOk` / `uninstallOk` = the boolean results of `install_batch` /
`uninstall_batch`.  Theorems that depend on the ranges of the draws take
them as hypotheses. -/
structure Env where
  sizeDraw : Nat → Nat
  delayMin : Nat → Nat
  jitter : Nat → Nat
  interDelay : Nat → Nat
  installOk : Nat → Bool
  uninstallOk : Nat → Bool

/-- The batch-size clamp: `if processed_apps + batch_size > total_apps:
batch_size = total_apps - processed_apps`. -/
def clampSize (quota processed draw : Nat) : Nat :=
  if quota < processed + draw then quota - processed else draw

/-- `delay_seconds = delay_minutes * 60 + random.randint(0, 59)`. -/
def delaySeconds (env : Env) (bn : Nat) : Nat :=
  env.delayMin bn * 60 + env.jitter bn

/-- What one loop iteration recorded about its batch: `batch_number`,
the raw `randint(5,14)` draw, the clamped `batch_size`, `processed_apps`
before the batch, the logged result of `install_batch`, and the logged
result of `uninstall_batch` (`none` when the iteration broke out before
reaching the uninstall phase). -/
structure BatchRec where
  num : Nat
  rawSize : Nat
  size : Nat
  processedBefore : Nat
  installRes : Bool
  uninstallRes : Option Bool
deriving DecidableEq, Repr

/-- How `main_installation` ended: the final `if shutdown_flag` log line
(`STOPPED BY USER` vs `ALL BATCHES COMPLETED`), or the model's fuel ran
out (never happens with enough fuel). -/
inductive Outcome
  | completed
  | stopped
  | outOfFuel
deriving DecidableEq, Repr

/-- Observable result of a run: terminal outcome, final `processed_apps`
and the per-batch records in order. -/
structure RunResult where
  outcome : Outcome
  processed : Nat
  batches : List BatchRec
deriving DecidableEq, Repr

/-- Leaving the while loop: the terminal `if shutdown_flag:` at line 521
reads the flag once more to decide which outcome is logged. -/
def finishRun (flag : Nat → Bool) (r processed : Nat) (acc : List BatchRec) :
    RunResult :=
  { outcome := if flag r then .stopped else .completed
    processed := processed
    batches := acc.reverse }

/-- Result of one iteration attempt: the loop terminated with a result,
or continues with updated `processed_apps`, `batch_number`, read index
and records. -/
inductive StepOut
  | done (res : RunResult)
  | next (processed batchNum r : Nat) (acc : List BatchRec)
deriving DecidableEq

/-- Flag reads performed between the uninstall phase and the next `while`
test (lines 506-517): the `processed_apps < total_apps and not
shutdown_flag` guard reads the flag only when the quota is unreached
(short-circuit) and, when it reads false, runs the cancellable
inter-batch wait; `batch_number % 5 == 0 and not shutdown_flag` reads
the flag only on every fifth batch.  Returns the next unused read
index. -/
def afterBatchReads (env : Env) (quota : Nat) (flag : Nat → Bool)
    (p2 bn rnext : Nat) : Nat :=
  let r5 := if p2 < quota then
              (if flag rnext then rnext + 1
               else (waitTicks (env.interDelay bn / 10) flag (rnext + 1)).2)
            else rnext
  if bn % 5 = 0 then r5 + 1 else r5

/-- One iteration of the `while processed_apps < total_apps and not
shutdown_flag` loop of `main_installation` (lines 446-517), with the
loop exit falling through to the terminal logging.  Flag reads in order:
the `while` condition (line 446, only when quota unreached), the
`if shutdown_flag: break` at line 450, the post-install check at line
477, one read per tick of the post-install wait (lines 487-490), the
post-wait check at line 492, then `afterBatchReads`.  The `install_batch`
and `uninstall_batch` results are only logged, never branched on. -/
def runStep (env : Env) (quota : Nat) (flag : Nat → Bool)
    (p bn r : Nat) (acc : List BatchRec) : StepOut :=
  if p < quota then
    if flag r then .done (finishRun flag (r + 1) p acc)
    else if flag (r + 1) then .done (finishRun flag (r + 2) p acc)
    else if flag (r + 2) then
      .done (finishRun flag (r + 3) p
        (⟨bn + 1, env.sizeDraw (bn + 1), clampSize quota p (env.sizeDraw (bn + 1)),
          p, env.installOk (bn + 1), none⟩ :: acc))
    else if flag (waitTicks (delaySeconds env (bn + 1) / 10) flag (r + 3)).2 then
      .done (finishRun flag
        ((waitTicks (delaySeconds env (bn + 1) / 10) flag (r + 3)).2 + 1) p
        (⟨bn + 1, env.sizeDraw (bn + 1), clampSize quota p (env.sizeDraw (bn + 1)),
          p, env.installOk (bn + 1), none⟩ :: acc))
    else
      .next (p + clampSize quota p (env.sizeDraw (bn + 1))) (bn + 1)
        (afterBatchReads env quota flag
          (p + clampSize quota p (env.sizeDraw (bn + 1))) (bn + 1)
          ((waitTicks (delaySeconds env (bn + 1) / 10) flag (r + 3)).2 + 1))
        (⟨bn + 1, env.sizeDraw (bn + 1), clampSize quota p (env.sizeDraw (bn + 1)),
          p, env.installOk (bn + 1), some (env.uninstallOk (bn + 1))⟩ :: acc)
  else .done (finishRun flag r p acc)

/-- The scheduler loop, fuelled.  Each continuing iteration raises
`processed_apps` by at least one (the draw is at least 5, the clamp
at least 1), so `quota + 1` fuel always suffices. -/
def runLoop (env : Env) (quota : Nat) (flag : Nat → Bool) :
    Nat → Nat → Nat → Nat → List BatchRec → RunResult
  | 0, p, _, _, acc => ⟨.outOfFuel, p, acc.reverse⟩
  | fuel + 1, p, bn, r, acc =>
    match runStep env quota flag p bn r acc with
    | .done res => res
    | .next p2 bn2 r2 acc2 => runLoop env quota flag fuel p2 bn2 r2 acc2

/-- `main_installation` after the one-time update phase: `quota` is the
`random.randint(161, 199)` draw for `total_apps`; `processed_apps` and
`batch_number` start at 0 and the first flag read has index 0. -/
def main_installation (env : Env) (quota : Nat) (flag : Nat → Bool) : RunResult :=
  runLoop env quota flag (quota + 1) 0 0 0 []

/-! ### Lemmas about the cancellable wait loop -/

/-- The wait loop never sleeps more ticks than its iteration count. -/
theorem waitTicks_fst_le (n : Nat) (flag : Nat → Bool) (r : Nat) :
    (waitTicks n flag r).1 ≤ n := by
  induction n generalizing r with
  | zero => simp [waitTicks]
  | succ k ih =>
    simp only [waitTicks]
    split
    · exact Nat.zero_le _
    · exact Nat.succ_le_succ (ih (r + 1))

/-- With the flag never set, the wait loop sleeps all its ticks. -/
theorem waitTicks_false (n r : Nat) :
    (waitTicks n (fun _ => false) r).1 = n := by
  induction n generalizing r with
  | zero => rfl
  | succ k ih => simp [waitTicks, ih]

/-- Once a read observes the flag set, the wait loop sleeps no further
tick: if the flag is set at the s-th read after the loop starts, at most
s ticks are slept in total. -/
theorem waitTicks_stop (n : Nat) (flag : Nat → Bool) (r s : Nat)
    (hs : flag (r + s) = true) :
    (waitTicks n flag r).1 ≤ s := by
  induction n generalizing r s with
  | zero => exact Nat.zero_le _
  | succ k ih =>
    simp only [waitTicks]
    split
    · exact Nat.zero_le _
    · rename_i hr
      cases s with
      | zero =>
        rw [Nat.add_zero] at hs
        simp [hs] at hr
      | succ s1 =>
        have hs2 : flag (r + 1 + s1) = true := by
          have : r + 1 + s1 = r + (s1 + 1) := by omega
          rw [this]; exact hs
        exact Nat.succ_le_succ (ih (r + 1) s1 hs2)

/-! ### Lemmas about one scheduler iteration -/

/-- A batch size as the spec describes it: in [5,14], or a clamped final
size in [1,14] that lands `processed_apps` exactly on the quota. -/
def BatchOk (quota : Nat) (b : BatchRec) : Prop :=
  (5 ≤ b.size ∧ b.size ≤ 14) ∨
  (1 ≤ b.size ∧ b.size ≤ 14 ∧ b.processedBefore + b.size = quota)

/-- A batch drawn while the quota is unreached is well-sized. -/
theorem clampSize_ok {quota p draw : Nat} (hp : p < quota)
    (h5 : 5 ≤ draw) (h14 : draw ≤ 14) :
    (5 ≤ clampSize quota p draw ∧ clampSize quota p draw ≤ 14) ∨
    (1 ≤ clampSize quota p draw ∧ clampSize quota p draw ≤ 14 ∧
      p + clampSize quota p draw = quota) := by
  unfold clampSize
  split
  · right; omega
  · left; omega

/-- A terminating iteration reports the `processed_apps` it was entered
with: nothing is added to the count on any break path. -/
theorem runStep_done_processed {env : Env} {quota : Nat} {flag : Nat → Bool}
    {p bn r : Nat} {acc : List BatchRec} {res : RunResult}
    (h : runStep env quota flag p bn r acc = .done res) : res.processed = p := by
  unfold runStep at h
  repeat' split at h
  all_goals first
    | (cases h; rfl)
    | simp at h

/-- With a monotone flag and `processed_apps` within quota, an iteration
that terminates with the Completed outcome has reached the quota
exactly: every break path re-reads a flag that was already observed
true, so it reports Stopped. -/
theorem runStep_done_quota {env : Env} {quota : Nat} {flag : Nat → Bool}
    {p bn r : Nat} {acc : List BatchRec} {res : RunResult}
    (hm : MonoFlag flag) (hle : p ≤ quota)
    (h : runStep env quota flag p bn r acc = .done res)
    (hc : res.outcome = .completed) : res.processed = quota := by
  unfold runStep at h
  split at h
  · split at h
    · cases h
      rename_i hp hf
      have ht := hm r (r + 1) (Nat.le_succ r) hf
      simp [finishRun, ht] at hc
    · split at h
      · cases h
        rename_i hp h0 hf
        have ht := hm (r + 1) (r + 2) (by omega) hf
        simp [finishRun, ht] at hc
      · split at h
        · cases h
          rename_i hp h0 h1 hf
          have ht := hm (r + 2) (r + 3) (by omega) hf
          simp [finishRun, ht] at hc
        · split at h
          · cases h
            rename_i hp h0 h1 h2 hf
            have ht := hm _ _ (Nat.le_succ _) hf
            simp [finishRun, ht] at hc
          · simp at h
  · cases h
    rename_i hp
    simp only [finishRun]
    omega

/-- A continuing iteration adds exactly the clamped batch size and never
passes the quota. -/
theorem runStep_next_le {env : Env} {quota : Nat} {flag : Nat → Bool}
    {p bn r : Nat} {acc : List BatchRec} {p2 bn2 r2 : Nat} {acc2 : List BatchRec}
    (h : runStep env quota flag p bn r acc = .next p2 bn2 r2 acc2) :
    p2 ≤ quota := by
  unfold runStep at h
  repeat' split at h
  all_goals first
    | (cases h
       unfold clampSize
       split <;> omega)
    | simp at h

/-- All records a terminating iteration reports are well-sized batches
(given well-sized earlier records and in-range size draws). -/
theorem runStep_done_mem {env : Env} {quota : Nat} {flag : Nat → Bool}
    {p bn r : Nat} {acc : List BatchRec} {res : RunResult}
    (hsz : ∀ k, 5 ≤ env.sizeDraw k ∧ env.sizeDraw k ≤ 14)
    (hacc : ∀ b ∈ acc, BatchOk quota b)
    (h : runStep env quota flag p bn r acc = .done res) :
    ∀ b ∈ res.batches, BatchOk quota b := by
  unfold runStep at h
  repeat' split at h
  all_goals first
    | (cases h
       intro b hb
       simp only [finishRun, List.mem_reverse] at hb
       first
         | exact hacc b hb
         | (rcases List.mem_cons.mp hb with hb1 | hb2
            · subst hb1
              simp only [BatchOk]
              exact clampSize_ok ‹p < quota› (hsz (bn + 1)).1 (hsz (bn + 1)).2
            · exact hacc b hb2))
    | simp at h

/-- All records a continuing iteration carries forward are well-sized
batches. -/
theorem runStep_next_mem {env : Env} {quota : Nat} {flag : Nat → Bool}
    {p bn r : Nat} {acc : List BatchRec} {p2 bn2 r2 : Nat} {acc2 : List BatchRec}
    (hsz : ∀ k, 5 ≤ env.sizeDraw k ∧ env.sizeDraw k ≤ 14)
    (hacc : ∀ b ∈ acc, BatchOk quota b)
    (h : runStep env quota flag p bn r acc = .next p2 bn2 r2 acc2) :
    ∀ b ∈ acc2, BatchOk quota b := by
  unfold runStep at h
  repeat' split at h
  all_goals first
    | (cases h
       intro b hb
       rcases List.mem_cons.mp hb with hb1 | hb2
       · subst hb1
         simp only [BatchOk]
         exact clampSize_ok ‹p < quota› (hsz (bn + 1)).1 (hsz (bn + 1)).2
       · exact hacc b hb2)
    | simp at h

/-! ### Lemmas about the whole loop -/

theorem runLoop_zero (env : Env) (quota : Nat) (flag : Nat → Bool)
    (p bn r : Nat) (acc : List BatchRec) :
    runLoop env quota flag 0 p bn r acc = ⟨.outOfFuel, p, acc.reverse⟩ := rfl

theorem runLoop_succ (env : Env) (quota : Nat) (flag : Nat → Bool)
    (fuel p bn r : Nat) (acc : List BatchRec) :
    runLoop env quota flag (fuel + 1) p bn r acc =
      match runStep env quota flag p bn r acc with
      | .done res => res
      | .next p2 bn2 r2 acc2 => runLoop env quota flag fuel p2 bn2 r2 acc2 := rfl

/-- Main invariant: `processed_apps` stays within the quota at all
times, and a Completed outcome means it reached the quota exactly. -/
theorem runLoop_processed_le (env : Env) (quota : Nat) (flag : Nat → Bool)
    (hm : MonoFlag flag) :
    ∀ fuel p bn r acc, p ≤ quota →
      (runLoop env quota flag fuel p bn r acc).processed ≤ quota ∧
      ((runLoop env quota flag fuel p bn r acc).outcome = .completed →
        (runLoop env quota flag fuel p bn r acc).processed = quota) := by
  intro fuel
  induction fuel with
  | zero =>
    intro p bn r acc hp
    rw [runLoop_zero]
    exact ⟨hp, by intro hc; simp at hc⟩
  | succ k ih =>
    intro p bn r acc hp
    rw [runLoop_succ]
    cases hstep : runStep env quota flag p bn r acc with
    | done res =>
      refine ⟨?_, runStep_done_quota hm hp hstep⟩
      rw [runStep_done_processed hstep]
      exact hp
    | next p2 bn2 r2 acc2 =>
      exact ih p2 bn2 r2 acc2 (runStep_next_le hstep)

/-- All batch records of a run are well-sized. -/
theorem runLoop_batches_ok (env : Env) (quota : Nat) (flag : Nat → Bool)
    (hsz : ∀ k, 5 ≤ env.sizeDraw k ∧ env.sizeDraw k ≤ 14) :
    ∀ fuel p bn r acc, (∀ b ∈ acc, BatchOk quota b) →
      ∀ b ∈ (runLoop env quota flag fuel p bn r acc).batches, BatchOk quota b := by
  intro fuel
  induction fuel with
  | zero =>
    intro p bn r acc hacc
    rw [runLoop_zero]
    intro b hb
    exact hacc b (List.mem_reverse.mp hb)
  | succ k ih =>
    intro p bn r acc hacc
    rw [runLoop_succ]
    cases hstep : runStep env quota flag p bn r acc with
    | done res => exact runStep_done_mem hsz hacc hstep
    | next p2 bn2 r2 acc2 =>
      exact ih p2 bn2 r2 acc2 (runStep_next_mem hsz hacc hstep)

/-- A concrete oracle environment for witnesses: every size draw is 14,
all delays are zero ticks, every package-manager call succeeds. -/
def witEnv : Env :=
  ⟨fun _ => 14, fun _ => 0, fun _ => 0, fun _ => 0, fun _ => true, fun _ => true⟩

/-! ### Claim theorems -/

/-- **C1.** For every run that reaches the Completed terminal state, the
final `processed_apps` equals the `total_apps` quota drawn at the start
exactly: each iteration's batch size is clamped so `processed_apps`
never exceeds the quota (first conjunct, no cancellation assumption
needed), and with the monotone shutdown flag the loop reports Completed
only when `processed_apps` has reached the quota exactly (second
conjunct). -/
theorem completed_processed_eq_quota (env : Env) (quota : Nat)
    (flag : Nat → Bool) (hm : MonoFlag flag) :
    (main_installation env quota flag).processed ≤ quota ∧
    ((main_installation env quota flag).outcome = .completed →
      (main_installation env quota flag).processed = quota) :=
  runLoop_processed_le env quota flag hm (quota + 1) 0 0 0 [] (Nat.zero_le quota)

/-- Witness for C1: a run with quota 161 and size draws of 14 completes
with exactly 161 processed. -/
theorem completed_processed_eq_quota_witness :
    (main_installation witEnv 161 (fun _ => false)).processed = 161 :=
  (completed_processed_eq_quota witEnv 161 (fun _ => false)
    (fun _ _ _ hi => hi)).2 (by decide)

/-- **C6.** Every batch drawn during a run has size in [5,14], except
possibly a clamped final batch whose size is in [1,14] and whose
completion lands `processed_apps` exactly on the quota. -/
theorem batch_sizes_in_range (env : Env) (quota : Nat) (flag : Nat → Bool)
    (hsz : ∀ k, 5 ≤ env.sizeDraw k ∧ env.sizeDraw k ≤ 14) :
    ∀ b ∈ (main_installation env quota flag).batches, BatchOk quota b :=
  runLoop_batches_ok env quota flag hsz (quota + 1) 0 0 0 [] (by simp)

/-- Witness for C6: in the quota-161 run with draws of 14, the twelfth
batch is the clamped final batch of size 7 starting at 154. -/
theorem batch_sizes_in_range_witness :
    BatchOk 161 ⟨12, 14, 7, 154, true, some true⟩ :=
  batch_sizes_in_range witEnv 161 (fun _ => false)
    (fun _ => ⟨(by decide : (5:Nat) ≤ 14), (by decide : (14:Nat) ≤ 14)⟩) _ (by decide)

/-- **C4.** If the cancellation flag is clear when an iteration starts
and becomes set by the time the post-wait check (line 492) reads it, the
run terminates in the Stopped state: the uninstall phase is never
invoked for the current batch (its record carries `uninstallRes = none`)
and its size is never added to `processed_apps`. -/
theorem cancel_in_wait_skips_uninstall (env : Env) (quota : Nat)
    (flag : Nat → Bool) (fuel p bn r : Nat) (acc : List BatchRec)
    (hm : MonoFlag flag) (hp : p < quota)
    (h0 : flag r = false) (h1 : flag (r + 1) = false) (h2 : flag (r + 2) = false)
    (hw : flag (waitTicks (delaySeconds env (bn + 1) / 10) flag (r + 3)).2 = true) :
    runLoop env quota flag (fuel + 1) p bn r acc =
      { outcome := .stopped
        processed := p
        batches := ((⟨bn + 1, env.sizeDraw (bn + 1),
          clampSize quota p (env.sizeDraw (bn + 1)), p,
          env.installOk (bn + 1), none⟩ : BatchRec) :: acc).reverse } := by
  rw [runLoop_succ]
  have hstep : runStep env quota flag p bn r acc =
      .done (finishRun flag
        ((waitTicks (delaySeconds env (bn + 1) / 10) flag (r + 3)).2 + 1) p
        ((⟨bn + 1, env.sizeDraw (bn + 1),
          clampSize quota p (env.sizeDraw (bn + 1)), p,
          env.installOk (bn + 1), none⟩ : BatchRec) :: acc)) := by
    unfold runStep
    simp [hp, h0, h1, h2, hw]
  rw [hstep]
  have hterm : flag ((waitTicks (delaySeconds env (bn + 1) / 10) flag (r + 3)).2 + 1)
      = true := hm _ _ (Nat.le_succ _) hw
  simp [finishRun, hterm]

/-- Witness for C4: flag set from read index 3 on, zero-tick wait; the
run stops with nothing processed and the sole batch never uninstalled. -/
theorem cancel_in_wait_skips_uninstall_witness :
    runLoop witEnv 161 (fun i => decide (3 ≤ i)) 1 0 0 0 [] =
      { outcome := .stopped
        processed := 0
        batches := [⟨1, 14, 14, 0, true, none⟩] } :=
  (cancel_in_wait_skips_uninstall witEnv 161 (fun i => decide (3 ≤ i)) 0 0 0 0 []
    (fun i j hij hi => decide_eq_true (Nat.le_trans (of_decide_eq_true hi) hij))
    (by decide) (by decide) (by decide) (by decide) (by decide)).trans (by decide)

/-- **C5.** The cancellable waits are tick loops that re-check the flag
between ticks: a wait of `n` iterations sleeps at most `s` ticks when
the flag is set by its s-th flag read, and never more than `n` ticks —
so once the flag is set, at most one tick interval of additional
sleeping occurs, regardless of the nominal wait duration.  Both the
post-install wait and the inter-batch wait of the scheduler are
`waitTicks` loops with `iters = delay_seconds / 10` (see `runStep` and
`afterBatchReads`). -/
theorem wait_cancellation_latency (n : Nat) (flag : Nat → Bool) (r s : Nat)
    (hs : flag (r + s) = true) :
    (waitTicks n flag r).1 ≤ s ∧ (waitTicks n flag r).1 ≤ n :=
  ⟨waitTicks_stop n flag r s hs, waitTicks_fst_le n flag r⟩

/-- Witness for C5: a nominal 420-second wait (42 ticks) with the flag
set at its fifth read sleeps at most 5 ticks. -/
theorem wait_cancellation_latency_witness :
    (waitTicks 42 (fun i => decide (5 ≤ i)) 0).1 ≤ 5 ∧
    (waitTicks 42 (fun i => decide (5 ≤ i)) 0).1 ≤ 42 :=
  wait_cancellation_latency 42 (fun i => decide (5 ≤ i)) 0 5 (by decide)

/-- C10 counterexample: for the draw `delay_minutes = 7`, `jitter = 59`
(`delay_seconds = 479`) the uncancelled wait sleeps 470 seconds and
drops only 9 — not "most of the sub-minute jitter" (a majority of the
59-second jitter would be at least 30 seconds). -/
theorem sleep_remainder_counterexample :
    10 * (waitTicks ((7 * 60 + 59) / 10) (fun _ => false) 0).1 = 470 ∧
    (7 * 60 + 59) - 10 * (waitTicks ((7 * 60 + 59) / 10) (fun _ => false) 0).1 = 9 ∧
    ¬(30 ≤ (7 * 60 + 59) - 10 * (waitTicks ((7 * 60 + 59) / 10) (fun _ => false) 0).1) := by
  decide

/-- **C10 (amended).** With no cancellation, the wait sleeps exactly
`delay_seconds / 10` ticks of 10 seconds, i.e. `delay_seconds` rounded
down to a multiple of 10; the dropped remainder is
`delay_seconds % 10 = jitter % 10`, at most 9 seconds — a sub-tick part
of the sub-minute jitter, not most of it. -/
theorem sleep_duration_rounds_down (m j r : Nat) :
    (waitTicks ((m * 60 + j) / 10) (fun _ => false) r).1 = (m * 60 + j) / 10 ∧
    10 * ((m * 60 + j) / 10) = (m * 60 + j) - (m * 60 + j) % 10 ∧
    (m * 60 + j) % 10 = j % 10 ∧ j % 10 ≤ 9 := by
  refine ⟨waitTicks_false _ _, ?_, ?_, ?_⟩ <;> omega

theorem delaySeconds_installOk (env : Env) (g : Nat → Bool) (bn : Nat) :
    delaySeconds { env with installOk := g } bn = delaySeconds env bn := rfl

theorem afterBatchReads_installOk (env : Env) (g : Nat → Bool) (quota : Nat)
    (flag : Nat → Bool) (p2 bn rnext : Nat) :
    afterBatchReads { env with installOk := g } quota flag p2 bn rnext =
      afterBatchReads env quota flag p2 bn rnext := rfl

/-- The scheduler's control flow never consults the result of
`install_batch`: runs differing only in the install-result oracle (and
in the accumulated records) have the same outcome and processed count. -/
theorem runLoop_installOk_irrel (env : Env) (g : Nat → Bool) (quota : Nat)
    (flag : Nat → Bool) :
    ∀ fuel p bn r acc1 acc2,
      ((runLoop { env with installOk := g } quota flag fuel p bn r acc1).outcome =
        (runLoop env quota flag fuel p bn r acc2).outcome) ∧
      ((runLoop { env with installOk := g } quota flag fuel p bn r acc1).processed =
        (runLoop env quota flag fuel p bn r acc2).processed) := by
  intro fuel
  induction fuel with
  | zero =>
    intro p bn r acc1 acc2
    rw [runLoop_zero, runLoop_zero]
    exact ⟨rfl, rfl⟩
  | succ k ih =>
    intro p bn r acc1 acc2
    rw [runLoop_succ, runLoop_succ]
    unfold runStep
    simp only [delaySeconds_installOk, afterBatchReads_installOk]
    by_cases hp : p < quota
    · by_cases h0 : flag r = true
      · simp only [hp, h0, if_true, ite_true, if_pos]
        exact ⟨rfl, rfl⟩
      · by_cases h1 : flag (r + 1) = true
        · simp only [hp, h0, h1, if_true, if_false, ite_true, ite_false, if_pos, if_neg,
            not_false_iff]
          exact ⟨rfl, rfl⟩
        · by_cases h2 : flag (r + 2) = true
          · simp only [hp, h0, h1, h2, if_true, if_false, ite_true, ite_false, if_pos,
              if_neg, not_false_iff]
            exact ⟨rfl, rfl⟩
          · by_cases hw :
              flag (waitTicks (delaySeconds env (bn + 1) / 10) flag (r + 3)).2 = true
            · simp only [hp, h0, h1, h2, hw, if_true, if_false, ite_true, ite_false,
                if_pos, if_neg, not_false_iff]
              exact ⟨rfl, rfl⟩
            · simp only [hp, h0, h1, h2, hw, if_true, if_false, ite_true, ite_false,
                if_pos, if_neg, not_false_iff]
              exact ih _ _ _ _ _
    · simp only [hp, if_neg, not_false_iff, ite_false]
      exact ⟨rfl, rfl⟩

/-- C2 counterexample: a whole-batch `TimeoutExpired` on a 10-item batch
makes `install_batch` return failure after zero per-item fallback calls,
even though every per-item call would have succeeded, while a reported
whole-batch failure runs the 10-call fallback.  A timeout is caught but
does not trigger the per-item fallback pass, refuting the claim that
both do. -/
theorem install_timeout_no_fallback :
    (install_batch .timedOut (fun _ => .success) 10).fallbackAttempts = 0 ∧
    (install_batch .timedOut (fun _ => .success) 10).result = false ∧
    (install_batch .failure (fun _ => .success) 10).fallbackAttempts = 10 ∧
    (install_batch .failure (fun _ => .success) 10).result = true := by
  decide

/-- **C2 (amended).** During the Installing phase both a timeout and a
reported failure of the whole-batch call are caught locally and never
abort the run — the scheduler's outcome and processed count do not
depend on the install result at all.  A reported whole-batch failure
triggers the per-item fallback (one attempt per item, individual
successes counted, progress iff at least one succeeded); a whole-batch
timeout returns failure immediately without attempting the per-item
fallback. -/
theorem install_error_policy (itemRes : Nat → CallOutcome) (n : Nat)
    (env : Env) (g : Nat → Bool) (quota : Nat) (flag : Nat → Bool) :
    (install_batch .failure itemRes n).fallbackAttempts = n ∧
    ((install_batch .failure itemRes n).result = true ↔
      0 < countSuccess itemRes n) ∧
    (install_batch .timedOut itemRes n).result = false ∧
    (install_batch .timedOut itemRes n).fallbackAttempts = 0 ∧
    ((main_installation { env with installOk := g } quota flag).outcome =
      (main_installation env quota flag).outcome) ∧
    ((main_installation { env with installOk := g } quota flag).processed =
      (main_installation env quota flag).processed) := by
  refine ⟨rfl, ?_, rfl, rfl, ?_, ?_⟩
  · simp [install_batch]
  · exact (runLoop_installOk_irrel env g quota flag (quota + 1) 0 0 0 [] []).1
  · exact (runLoop_installOk_irrel env g quota flag (quota + 1) 0 0 0 [] []).2

/-- If no per-item call times out, the uninstall fallback loop runs to
completion over all items, whatever their return codes. -/
theorem uninstallItems_clean (itemRes : Nat → CallOutcome) :
    ∀ k start, (∀ i, i < k → itemRes (start + i) ≠ .timedOut) →
      uninstallItems itemRes start k = (true, k) := by
  intro k
  induction k with
  | zero => intro start _; rfl
  | succ m ih =>
    intro start h
    have h0 : ¬(itemRes start = .timedOut) := by
      have := h 0 (Nat.succ_pos m)
      simpa using this
    have hrest : ∀ i, i < m → itemRes (start + 1 + i) ≠ .timedOut := by
      intro i hi
      have := h (i + 1) (Nat.succ_lt_succ hi)
      rw [show start + 1 + i = start + (i + 1) by omega]
      exact this
    simp only [uninstallItems, if_neg h0, ih (start + 1) hrest]

/-- The first per-item timeout escapes the uninstall fallback loop: the
items after it are never attempted. -/
theorem uninstallItems_timeout (itemRes : Nat → CallOutcome) :
    ∀ j k start, j < k → itemRes (start + j) = .timedOut →
      (∀ i, i < j → itemRes (start + i) ≠ .timedOut) →
      uninstallItems itemRes start k = (false, j + 1) := by
  intro j
  induction j with
  | zero =>
    intro k start hk ht _
    cases k with
    | zero => omega
    | succ m =>
      rw [Nat.add_zero] at ht
      simp [uninstallItems, ht]
  | succ j1 ih =>
    intro k start hk ht hpre
    cases k with
    | zero => omega
    | succ m =>
      have h0 : ¬(itemRes start = .timedOut) := by
        have := hpre 0 (Nat.succ_pos j1)
        simpa using this
      have ht2 : itemRes (start + 1 + j1) = .timedOut := by
        rw [show start + 1 + j1 = start + (j1 + 1) by omega]
        exact ht
      have hpre2 : ∀ i, i < j1 → itemRes (start + 1 + i) ≠ .timedOut := by
        intro i hi
        have := hpre (i + 1) (Nat.succ_lt_succ hi)
        rw [show start + 1 + i = start + (i + 1) by omega]
        exact this
      simp only [uninstallItems, if_neg h0,
        ih m (start + 1) (by omega) ht2 hpre2]

/-- C3 counterexample: on the same inputs — whole-batch call reports
failure, every per-item call reports failure — `uninstall_batch`
returns success while `install_batch` returns failure (zero successes
counted).  The uninstall phase is not a mirror of the install phase. -/
theorem uninstall_not_mirror_counterexample :
    (uninstall_batch .failure (fun _ => .failure) 10).result = true ∧
    (install_batch .failure (fun _ => .failure) 10).result = false := by
  decide

/-- **C3 (amended).** Uninstalling mirrors Installing for a whole-batch
success and a whole-batch timeout, and failures are equally non-fatal to
the run; but its per-item fallback differs: it counts no successes and
reports success whenever the loop completes (even if every per-item call
fails), and the per-item calls are not individually guarded against
timeout, so the first per-item timeout aborts the remaining calls and
makes the phase report failure. -/
theorem uninstall_fallback_policy (itemRes : Nat → CallOutcome) (n j : Nat)
    (hj : j < n) (ht : itemRes j = .timedOut)
    (hpre : ∀ i, i < j → itemRes i ≠ .timedOut) :
    uninstall_batch .success itemRes n = install_batch .success itemRes n ∧
    uninstall_batch .timedOut itemRes n = install_batch .timedOut itemRes n ∧
    (∀ g : Nat → CallOutcome, (∀ i, i < n → g i ≠ .timedOut) →
      uninstall_batch .failure g n = ⟨true, n, 0⟩) ∧
    uninstall_batch .failure itemRes n = ⟨false, j + 1, 0⟩ := by
  refine ⟨rfl, rfl, ?_, ?_⟩
  · intro g hg
    have h := uninstallItems_clean g n 0 (by intro i hi; simpa using hg i hi)
    simp [uninstall_batch, h]
  · have h := uninstallItems_timeout itemRes j n 0 hj (by simpa using ht)
      (by intro i hi; simpa using hpre i hi)
    simp [uninstall_batch, h]

/-- Witness for C3: with a batch of 5 whose third per-item call times
out, `uninstall_batch` stops after 3 of the 5 fallback calls and reports
failure. -/
theorem uninstall_fallback_policy_witness :
    uninstall_batch .failure
      (fun i => if i = 2 then .timedOut else .failure) 5 = ⟨false, 3, 0⟩ :=
  (uninstall_fallback_policy (fun i => if i = 2 then .timedOut else .failure) 5 2
    (by decide) (by decide) (by decide)).2.2.2

/-- **C7.** `check_existing_process` with a lock file recording a live
pid reports running and leaves the lock file untouched; with a lock
file naming a dead pid it deletes the file and reports not running;
with non-numeric contents it likewise deletes the file and reports not
running. -/
theorem check_existing_cases (s : String) (pid : Nat) (alive : Nat → Bool) :
    (pyIntNat s = some pid → alive pid = true →
      check_existing_process (some s) alive = (true, some s)) ∧
    (pyIntNat s = some pid → alive pid = false →
      check_existing_process (some s) alive = (false, none)) ∧
    (pyIntNat s = none → check_existing_process (some s) alive = (false, none)) := by
  refine ⟨?_, ?_, ?_⟩ <;> intro hparse
  · intro ha
    simp [check_existing_process, hparse, ha]
  · intro ha
    simp [check_existing_process, hparse, ha]
  · simp [check_existing_process, hparse]

/-- Witness for C7: a live pid 123 is reported running with the file
kept; the same file with every process dead is removed; a corrupt file
is removed. -/
theorem check_existing_cases_witness :
    check_existing_process (some "123") (fun q => decide (q = 123)) =
      (true, some "123") ∧
    check_existing_process (some "123") (fun _ => false) = (false, none) ∧
    check_existing_process (some "abc") (fun _ => false) = (false, none) :=
  ⟨(check_existing_cases "123" 123 (fun q => decide (q = 123))).1 (by decide) (by decide),
   (check_existing_cases "123" 123 (fun _ => false)).2.1 (by decide) rfl,
   (check_existing_cases "abc" 0 (fun _ => false)).2.2 (by decide)⟩

/-- Every path of `stop_process` that found a lock file removes it, and
the no-file path keeps it absent. -/
theorem stop_process_lock_none (lock : Option String)
    (termOk aliveAfter : Nat → Bool) :
    (stop_process lock termOk aliveAfter).lock = none := by
  unfold stop_process
  rcases lock with _ | s
  · rfl
  · dsimp only
    rcases hp : pyIntNat s with _ | pid <;> simp only [hp]
    · by_cases ht : termOk pid = true
      · by_cases ha : aliveAfter pid = true
        · simp [ht, ha]
        · simp [ht, ha]
      · simp [ht]

/-- **C8.** `stop()` is idempotent with respect to the lock file: after
one call the lock file is absent, and a second call in succession
reports that nothing is running, sends no signal, raises no error and
leaves the absent lock-file state unchanged. -/
theorem stop_idempotent (lock : Option String) (termOk aliveAfter : Nat → Bool) :
    (stop_process lock termOk aliveAfter).lock = none ∧
    stop_process (stop_process lock termOk aliveAfter).lock termOk aliveAfter =
      ⟨none, .noProcess, false, false⟩ := by
  refine ⟨stop_process_lock_none lock termOk aliveAfter, ?_⟩
  rw [stop_process_lock_none lock termOk aliveAfter]
  rfl

/-- **C9.** The `status` command decides its report solely from the
existence of the PID file: with a stale lock file — the recorded pid is
dead — it still reports RUNNING and leaves the stale file in place,
while `check_existing_process` on the same state would remove the file
and report not running. -/
theorem status_ignores_liveness (s : String) (pid : Nat) (alive : Nat → Bool)
    (hparse : pyIntNat s = some pid) (hdead : alive pid = false) :
    (status_command (some s)).1 = "Background process is RUNNING" ∧
    (status_command (some s)).2 = some s ∧
    check_existing_process (some s) alive = (false, none) := by
  refine ⟨rfl, rfl, ?_⟩
  simp [check_existing_process, hparse, hdead]

/-- Witness for C9: a PID file recording the dead pid 999 still makes
`status` report RUNNING without removing the file. -/
theorem status_ignores_liveness_witness :
    (status_command (some "999")).1 = "Background process is RUNNING" ∧
    (status_command (some "999")).2 = some "999" ∧
    check_existing_process (some "999") (fun _ => false) = (false, none) :=
  status_ignores_liveness "999" 999 (fun _ => false) (by decide) rfl

end BackgroundInstaller
